import Mathlib

/-!
Verification of the weather_data repository against its specification.

The Python sources are shallowly embedded below: geographic coordinates are
modelled as exact rationals, dictionaries as association lists (in a fixed
iteration order), Python exceptions as `Except`, and the `random.uniform` /
`random.randint` draws of the report and rain paths as explicit oracle
parameters. Definitions follow the corresponding Python functions;
theorems state the specified properties about them.
-/

namespace WeatherData

/-- A geographic point, as in `location.Location` (its identity is the
latitude/longitude pair; `RainController.run` constructs locations with
only these two fields). -/
@[ext]
structure Location where
  latitude : ℚ
  longitude : ℚ
deriving DecidableEq, Repr

/-- Embeds `controllers.arrange`: canonicalizes two corner points of a
rectangular region into (lower-left, upper-right), mirroring the source's
three-way latitude comparison with longitude sub-cases. -/
def arrange (location_a location_b : Location) : Location × Location :=
  if location_a.latitude < location_b.latitude then
    if location_b.longitude < location_a.longitude then
      (⟨location_a.latitude, location_b.longitude⟩,
       ⟨location_b.latitude, location_a.longitude⟩)
    else
      (location_a, location_b)
  else if location_a.latitude = location_b.latitude then
    if location_b.longitude < location_a.longitude then
      (⟨location_a.latitude, location_b.longitude⟩,
       ⟨location_b.latitude, location_a.longitude⟩)
    else
      (location_a, location_b)
  else
    if location_a.longitude < location_b.longitude then
      (⟨location_b.latitude, location_a.longitude⟩,
       ⟨location_a.latitude, location_b.longitude⟩)
    else
      (location_b, location_a)

/-- Summer/winter zone assignment state of a `PeriodicWeatherPlanet`
(`self._summer_zones` and `self._winter_zones`). -/
structure SeasonZones where
  summer_zones : List String
  winter_zones : List String
deriving DecidableEq, Repr

/-- Embeds the zone split in `PeriodicWeatherPlanet.__init__`:
`all_zones = sorted(planet_data['zones'].keys())`, `mid = len(all_zones) / 2`
(Python 2 integer division), summer gets `all_zones[:mid]`, winter the rest. -/
def initZones (all_zones : List String) : SeasonZones :=
  let mid := all_zones.length / 2
  ⟨all_zones.take mid, all_zones.drop mid⟩

/-- Embeds the season switch in `PeriodicController.run`: the summer and
winter zone lists are exchanged. -/
def swapSeasons (z : SeasonZones) : SeasonZones :=
  ⟨z.winter_zones, z.summer_zones⟩

/-- The partition invariant I1: summer and winter zones are disjoint and
together are exactly the planet's full zone set. -/
def isPartitionOf (z : SeasonZones) (all_zones : List String) : Prop :=
  (∀ x ∈ z.summer_zones, x ∉ z.winter_zones) ∧
  (∀ x ∈ all_zones, x ∈ z.summer_zones ∨ x ∈ z.winter_zones) ∧
  (∀ x ∈ z.summer_zones, x ∈ all_zones) ∧
  (∀ x ∈ z.winter_zones, x ∈ all_zones)

/-- The per-planet entry of `all_data.json`, restricted to the fields the
embedded code paths read. A zone's value (Python: a two-element list of
latitudes) is modelled as its (first, second) latitude pair; `Option` models
a key that may be absent from the JSON object. -/
structure PlanetData where
  zones : List (String × ℚ × ℚ)
  revolution_period : Option ℕ := none
  rain_zones : Option (List String) := none
deriving DecidableEq, Repr

/-- The `DataReaderError` exception raised by `data_reader`: either no data
exists for the planet (`GetPlanetData`) or no configured zone covers a
latitude (`GetZone`). -/
inductive DataReaderError where
  | noData (planet_name : String) : DataReaderError
  | cannotDetermineZone (latitude : ℚ) : DataReaderError
deriving DecidableEq, Repr

/-- Embeds `data_reader.GetPlanetData`: scans `all_data['planets']` for the
entry whose name matches and raises `DataReaderError` when none does. -/
def GetPlanetData (all_data : List (String × PlanetData)) (planet_name : String) :
    Except DataReaderError PlanetData :=
  match all_data.find? (fun p => p.1 == planet_name) with
  | some p => .ok p.2
  | none => .error (.noData planet_name)

/-- Embeds `data_reader.GetPeriod`:
`planet_data.get('revolution_period', 12)` — a missing entry is replaced by
the default 12. -/
def GetPeriod (planet_data : PlanetData) : ℕ :=
  planet_data.revolution_period.getD 12

/-- Embeds `data_reader.GetRainZones`:
`planet_data.get('rain_zones', [])`. -/
def GetRainZones (planet_data : PlanetData) : List String :=
  planet_data.rain_zones.getD []

/-- Embeds `data_reader.GetZone`: looks the planet up, then scans its zones
for the first whose latitude range contains the location's latitude — with
the range read in (first, second) order for a non-negative latitude and in
(second, first) order otherwise — and raises `DataReaderError` when no zone
matches. -/
def GetZone (all_data : List (String × PlanetData)) (planet_name : String)
    (location : Location) : Except DataReaderError String :=
  match GetPlanetData all_data planet_name with
  | .error e => .error e
  | .ok planet_data =>
    if 0 ≤ location.latitude then
      match planet_data.zones.find? (fun z =>
          decide (z.2.1 ≤ location.latitude) && decide (location.latitude ≤ z.2.2)) with
      | some z => .ok z.1
      | none => .error (.cannotDetermineZone location.latitude)
    else
      match planet_data.zones.find? (fun z =>
          decide (z.2.1 ≥ location.latitude) && decide (location.latitude ≥ z.2.2)) with
      | some z => .ok z.1
      | none => .error (.cannotDetermineZone location.latitude)

/-- One iteration of the per-planet body of `PeriodicController.run`, given
`half_period = GetPeriod(planet) / 2`: the state is the pair
(season clock, zone assignment); the clock advances modulo `half_period` and
the zones are swapped exactly when the new clock value is 0. -/
def periodicStep (half_period : ℕ) (s : ℕ × SeasonZones) : ℕ × SeasonZones :=
  let new_clock := (s.1 + 1) % half_period
  (new_clock, if new_clock = 0 then swapSeasons s.2 else s.2)

/-- `n` ticks of `PeriodicController.run` for one planet, starting from the
initial clock 0 set at the top of `run`. -/
def runTicks (half_period : ℕ) (n : ℕ) (z : SeasonZones) : ℕ × SeasonZones :=
  (periodicStep half_period)^[n] (0, z)

/-- The clock advance `(season_clock + 1) % planet_period` of
`PeriodicController.run` with Python semantics for the modulo: a zero
divisor raises `ZeroDivisionError` instead of producing a value. -/
def periodicClockAdvance (half_period : ℕ) (season_clock : ℕ) : Except String ℕ :=
  if half_period = 0 then
    .error "ZeroDivisionError: integer division or modulo by zero"
  else
    .ok ((season_clock + 1) % half_period)

/-- Embeds `controllers.getAllowedRainLatitudes` (after the planet lookup):
keeps the zones listed in `rain_zones`, flattens their latitude pairs and
takes `min`/`max`; Python's `min`/`max` raise `ValueError` on an empty
sequence, modelled by the `none` branch. -/
def getAllowedRainLatitudes (planet_data : PlanetData) : Except String (ℚ × ℚ) :=
  let rain_zones := GetRainZones planet_data
  let zone_data := planet_data.zones.filter (fun z => rain_zones.contains z.1)
  let regions := (zone_data.map (fun z => [z.2.1, z.2.2])).flatten
  match regions.min?, regions.max? with
  | some mn, some mx => .ok (mn, mx)
  | _, _ => .error "ValueError: min() arg is an empty sequence"

/-- One per-planet iteration of `RainController.run`: it first computes the
allowed rain latitudes (which may raise), then publishes the freshly drawn
region list; the random sampling of regions within the returned bounds is
abstracted as the `draw` oracle. -/
def rainTick (planet_data : PlanetData)
    (draw : ℚ × ℚ → List (Location × Location)) :
    Except String (List (Location × Location)) :=
  match getAllowedRainLatitudes planet_data with
  | .error e => .error e
  | .ok bounds => .ok (draw bounds)

/-- The controller chains produced by `controllers.createWeatherController`:
a `PeriodicController`, or a `RainController` wrapping the (possibly absent,
i.e. Python `None`) controller it was constructed over. -/
inductive WeatherController where
  | periodic : WeatherController
  | rain (base_controller : Option WeatherController) : WeatherController
deriving Repr

/-- Structural decidable equality for controller chains (the automatic
derivation does not handle the nested `Option`). -/
def WeatherController.deq : (a b : WeatherController) → Decidable (a = b)
  | .periodic, .periodic => isTrue rfl
  | .periodic, .rain _ => isFalse (fun h => WeatherController.noConfusion h)
  | .rain _, .periodic => isFalse (fun h => WeatherController.noConfusion h)
  | .rain none, .rain none => isTrue rfl
  | .rain none, .rain (some _) =>
      isFalse (by intro h; injection h with h2; exact Option.noConfusion h2)
  | .rain (some _), .rain none =>
      isFalse (by intro h; injection h with h2; exact Option.noConfusion h2)
  | .rain (some a), .rain (some b) =>
      match WeatherController.deq a b with
      | isTrue h => isTrue (by rw [h])
      | isFalse h => isFalse (by intro hh; injection hh with h2; injection h2 with h3; exact h h3)

instance : DecidableEq WeatherController := WeatherController.deq

/-- Embeds the inner `createBaseController` of `createWeatherController`:
only the identifier "periodic" produces a controller; any other identifier
falls through and returns Python `None`. -/
def createBaseController (base_weather : String) : Option WeatherController :=
  if base_weather = "periodic" then some .periodic else none

/-- Embeds the inner `createWeatherDecorator` of `createWeatherController`:
only the identifier "rain" produces a decorator (wrapping whatever the chain
currently is, even `None`); any other identifier returns Python `None`. -/
def createWeatherDecorator (decorator : String)
    (base_controller : Option WeatherController) : Option WeatherController :=
  if decorator = "rain" then some (.rain base_controller) else none

/-- Embeds `controllers.createWeatherController`: builds the base controller,
then reassigns the chain to `createWeatherDecorator(name, chain)` for each
decorator name in order. -/
def createWeatherController (base_weather : String)
    (weather_decorators : List String) : Option WeatherController :=
  weather_decorators.foldl
    (fun weather_controller decorator_name =>
      createWeatherDecorator decorator_name weather_controller)
    (createBaseController base_weather)

/-- Embeds the rain containment test in `PeriodicWeatherPlanet.report`:
`region[0].latitude <= location.latitude <= region[1].latitude and
region[0].longitude <= location.longitude <= region[1].longitude`. -/
def containsLocation (region : Location × Location) (location : Location) : Bool :=
  decide (region.1.latitude ≤ location.latitude) &&
  decide (location.latitude ≤ region.2.latitude) &&
  decide (region.1.longitude ≤ location.longitude) &&
  decide (location.longitude ≤ region.2.longitude)

/-- Embeds the `decorated_locations` list comprehension of
`PeriodicWeatherPlanet.report`: the concatenation, in attachment order, of
each attached overlay's currently published region list. -/
def decoratedLocations (overlays : List (List (Location × Location))) :
    List (Location × Location) :=
  overlays.flatten

/-- The season resolution of `PeriodicWeatherPlanet.report` for one location:
the first region containing the location forces "rain" (the for/break loop);
otherwise the for-else branch yields "summer" when the resolved zone is in
the summer zones and "winter" otherwise. -/
def resolveSeason (decorated_locations : List (Location × Location))
    (summer_zones : List String) (zone : String) (location : Location) : String :=
  match decorated_locations.find? (fun region => containsLocation region location) with
  | some _ => "rain"
  | none => if summer_zones.contains zone then "summer" else "winter"

/-- Embeds `Location.setSeason`: the stored season label maps "summer" to
"Sunny", "winter" to "Snow", "rain" to "Rain" and keeps any other value. -/
def setSeason (season : String) : String :=
  if season = "summer" then "Sunny"
  else if season = "winter" then "Snow"
  else if season = "rain" then "Rain"
  else season

/-- The mutable state of a `location.Location` during reporting: fixed
coordinates plus the observed-condition fields, each `none` until written
(Python `None`). -/
structure LocationState where
  latitude : ℚ
  longitude : ℚ
  temperature : Option ℚ := none
  pressure : Option ℚ := none
  humidity : Option ℤ := none
  season : Option String := none
deriving DecidableEq, Repr

/-- The geographic point of a location state. -/
def LocationState.toLocation (l : LocationState) : Location :=
  ⟨l.latitude, l.longitude⟩

/-- The environment read by one `PeriodicWeatherPlanet.report` step: the data
file contents and planet name (for `GetZone`), the planet's current summer
zones, the overlays' flattened region list, and oracles standing for the
`random.uniform` / `random.randint` draws inside the configured ranges. -/
structure ReportEnv where
  all_data : List (String × PlanetData)
  planet_name : String
  summer_zones : List String
  decorated_locations : List (Location × Location)
  drawTemperature : String → String → ℚ
  drawPressure : String → String → ℚ
  drawHumidity : String → String → ℤ

/-- The writes `report` performs on one location once its zone is resolved:
season resolution followed by the four field assignments (the season
assignment goes through the `setSeason` property setter). -/
def renderLocation (env : ReportEnv) (location : LocationState) (zone : String) :
    LocationState :=
  let season := resolveSeason env.decorated_locations env.summer_zones zone
    location.toLocation
  { location with
      temperature := some (env.drawTemperature zone season)
      pressure := some (env.drawPressure zone season)
      humidity := some (env.drawHumidity zone season)
      season := some (setSeason season) }

/-- One iteration of the location loop in `PeriodicWeatherPlanet.report`:
`GetZone` may raise (propagated), otherwise the location is rendered. -/
def reportStep (env : ReportEnv) (location : LocationState) :
    Except DataReaderError LocationState :=
  match GetZone env.all_data env.planet_name location.toLocation with
  | .error e => .error e
  | .ok zone => .ok (renderLocation env location zone)

/-- The location loop of `PeriodicWeatherPlanet.report` over the planet's
location list: processes locations in order; a raised `DataReaderError`
aborts the loop, leaving the current and all later locations unchanged, and
surfaces the error (second component) to the caller. -/
def reportLoop (env : ReportEnv) :
    List LocationState → List LocationState × Option DataReaderError
  | [] => ([], none)
  | location :: rest =>
    match reportStep env location with
    | .error e => (location :: rest, some e)
    | .ok rendered =>
        let result := reportLoop env rest
        (rendered :: result.1, result.2)

/-- The report loop with a possibly different environment at every step
(index `i` counts processed locations): this models a report call interleaved
with arbitrarily many concurrent season-flip ticks, each of which changes the
summer-zone set the next location step observes. -/
def reportLoopSeq (envs : ℕ → ReportEnv) :
    ℕ → List LocationState → List LocationState × Option DataReaderError
  | _, [] => ([], none)
  | i, location :: rest =>
    match reportStep (envs i) location with
    | .error e => (location :: rest, some e)
    | .ok rendered =>
        let result := reportLoopSeq envs (i + 1) rest
        (rendered :: result.1, result.2)

/-- The zone name `GetZone` resolves for a location (empty string when it
raises); used to state which zone a successfully processed location was
rendered with. -/
def zoneNameOf (env : ReportEnv) (location : LocationState) : String :=
  match GetZone env.all_data env.planet_name location.toLocation with
  | .ok zone => zone
  | .error _ => ""

/-- Whether an `Except` value is a success. -/
def exceptIsOk {ε α : Type} : Except ε α → Bool
  | .ok _ => true
  | .error _ => false

/-- Rounding to the nearest integer with ties to even, the rounding `%.1f`
applies (to ten times the value) when keeping one fraction digit. -/
def roundHalfEven (x : ℚ) : ℤ :=
  if x - ⌊x⌋ < 1 / 2 then ⌊x⌋
  else if 1 / 2 < x - ⌊x⌋ then ⌊x⌋ + 1
  else if ⌊x⌋ % 2 = 0 then ⌊x⌋ else ⌊x⌋ + 1

/-- The string `'%.1f' % t` for a real value `t` (Python floats are modelled
as exact rationals): the value rounded to tenths (half to even), rendered
with exactly one fraction digit, and with a '-' sign kept even when the
rounded magnitude is zero (Python renders `-0.04` as "-0.0"). -/
def formatTenths (t : ℚ) : String :=
  (if roundHalfEven (10 * t) < 0 ∨ (roundHalfEven (10 * t) = 0 ∧ t < 0)
   then "-" else "") ++
  Nat.repr ((roundHalfEven (10 * t)).natAbs / 10) ++ "." ++
  Nat.repr ((roundHalfEven (10 * t)).natAbs % 10)

/-- Embeds `Location.getTemperatureAsString`: an unset temperature renders as
"None"; a temperature of exactly 0 is falsy in Python, so the formatting
branch is skipped and `str(0.0)`, i.e. "0.0", is returned; otherwise the
value is formatted with `'%.1f'` and a '+' is prepended when
`float(formatted) > 0`, i.e. exactly when the rounded value is positive. -/
def getTemperatureAsString (temperature : Option ℚ) : String :=
  match temperature with
  | none => "None"
  | some v =>
    if v = 0 then "0.0"
    else if 0 < roundHalfEven (10 * v) then "+" ++ formatTenths v
    else formatTenths v

/-- Sample zone table used by the concrete witnesses below. -/
def sampleZones : List (String × ℚ × ℚ) :=
  [("tropical", 0, 30), ("temperate", 30, 60)]

/-- Sample planet entry used by the concrete witnesses below. -/
def samplePlanetData : PlanetData :=
  { zones := sampleZones, revolution_period := some 4, rain_zones := some ["tropical"] }

/-- Sample data file used by the concrete witnesses below. -/
def sampleAllData : List (String × PlanetData) :=
  [("earth", samplePlanetData)]

/-- Sample report environment (no rain regions published) used by the
concrete witnesses below. -/
def sampleEnv : ReportEnv :=
  { all_data := sampleAllData
    planet_name := "earth"
    summer_zones := ["tropical"]
    decorated_locations := []
    drawTemperature := fun _ _ => 20
    drawPressure := fun _ _ => 1000
    drawHumidity := fun _ _ => 50 }

/-- A location inside the sample planet's tropical zone. -/
def sampleLocation : LocationState :=
  { latitude := 10, longitude := 20 }

/-- A location whose latitude (80) no sample zone covers, so `GetZone`
raises for it. -/
def sampleBadLocation : LocationState :=
  { latitude := 80, longitude := 0 }

/-- The default used to state positional hypotheses with `List.getD`. -/
def emptyLocationState : LocationState :=
  { latitude := 0, longitude := 0 }

/-- `sampleLocation` after a successful report step under `sampleEnv`. -/
def sampleRendered : LocationState :=
  { latitude := 10, longitude := 20, temperature := some 20,
    pressure := some 1000, humidity := some 50, season := some "Sunny" }

theorem arrange_comm (a b : Location) : arrange a b = arrange b a := by
  unfold arrange
  split_ifs <;>
    first
      | rfl
      | (exfalso; linarith)
      | (simp only [Prod.mk.injEq]; constructor <;> ext <;> dsimp only <;> linarith)

theorem arrange_fst_latitude (a b : Location) :
    (arrange a b).1.latitude = min a.latitude b.latitude := by
  unfold arrange
  split_ifs <;> simp only [min_def] <;> split_ifs <;> (try dsimp only) <;> linarith

theorem arrange_snd_latitude (a b : Location) :
    (arrange a b).2.latitude = max a.latitude b.latitude := by
  unfold arrange
  split_ifs <;> simp only [max_def] <;> split_ifs <;> (try dsimp only) <;> linarith

theorem arrange_fst_longitude (a b : Location) :
    (arrange a b).1.longitude = min a.longitude b.longitude := by
  unfold arrange
  split_ifs <;> simp only [min_def] <;> split_ifs <;> (try dsimp only) <;> linarith

theorem arrange_snd_longitude (a b : Location) :
    (arrange a b).2.longitude = max a.longitude b.longitude := by
  unfold arrange
  split_ifs <;> simp only [max_def] <;> split_ifs <;> (try dsimp only) <;> linarith

/-- C4: `arrange` is total and commutative: `arrange A B = arrange B A` for
all four relative orderings of the inputs, the first returned corner's
latitude is ≤ the second's (its latitude and longitude are the pointwise
minima, the second corner's the pointwise maxima, which in particular gives
the specified longitude tie-break on equal latitudes), and corners
(25, 100) and (15, -40) normalize to lower-left (15, -40),
upper-right (25, 100). -/
theorem c4_arrange_total_commutative (a b : Location) :
    arrange a b = arrange b a ∧
    (arrange a b).1.latitude = min a.latitude b.latitude ∧
    (arrange a b).2.latitude = max a.latitude b.latitude ∧
    (arrange a b).1.longitude = min a.longitude b.longitude ∧
    (arrange a b).2.longitude = max a.longitude b.longitude ∧
    arrange ⟨25, 100⟩ ⟨15, -40⟩ = (⟨15, -40⟩, ⟨25, 100⟩) := by
  refine ⟨arrange_comm a b, arrange_fst_latitude a b, arrange_snd_latitude a b,
    arrange_fst_longitude a b, arrange_snd_longitude a b, by decide⟩

theorem isPartitionOf_init (all_zones : List String) (h : all_zones.Nodup) :
    isPartitionOf (initZones all_zones) all_zones := by
  have hsplit : all_zones.take (all_zones.length / 2) ++
      all_zones.drop (all_zones.length / 2) = all_zones :=
    List.take_append_drop _ _
  have hdisj : List.Disjoint (all_zones.take (all_zones.length / 2))
      (all_zones.drop (all_zones.length / 2)) := by
    apply List.disjoint_of_nodup_append
    rw [hsplit]; exact h
  refine ⟨fun x hx hx2 => hdisj hx hx2, ?_, ?_, ?_⟩
  · intro x hx
    rw [← hsplit] at hx
    exact List.mem_append.mp hx
  · intro x hx
    exact List.mem_of_mem_take hx
  · intro x hx
    exact List.mem_of_mem_drop hx

theorem isPartitionOf_swap (z : SeasonZones) (all_zones : List String)
    (h : isPartitionOf z all_zones) : isPartitionOf (swapSeasons z) all_zones := by
  obtain ⟨h1, h2, h3, h4⟩ := h
  exact ⟨fun x hx hx2 => h1 x hx2 hx, fun x hx => (h2 x hx).symm, h4, h3⟩

/-- C2: for every planet, the summer/winter zone lists partition the planet's
full (duplicate-free) zone set immediately after construction (`n = 0`) and
after every season swap performed by the periodic controller (any number `n`
of swaps). -/
theorem c2_partition_invariant (all_zones : List String) (h : all_zones.Nodup)
    (n : ℕ) : isPartitionOf (swapSeasons^[n] (initZones all_zones)) all_zones := by
  induction n with
  | zero => exact isPartitionOf_init all_zones h
  | succ k ih =>
      rw [Function.iterate_succ_apply']
      exact isPartitionOf_swap _ _ ih

theorem c2_partition_invariant_witness :
    (["polar", "temperate", "tropical", "equatorial"] : List String).Nodup ∧
      isPartitionOf
        (swapSeasons^[1] (initZones ["polar", "temperate", "tropical", "equatorial"]))
        ["polar", "temperate", "tropical", "equatorial"] :=
  ⟨by decide, c2_partition_invariant _ (by decide) 1⟩

theorem runTicks_eq (hp : ℕ) (z : SeasonZones) (n : ℕ) :
    runTicks hp n z = (n % hp, if (n / hp) % 2 = 0 then z else swapSeasons z) := by
  induction n with
  | zero => simp [runTicks]
  | succ k ih =>
      have hstep : runTicks hp (k + 1) z = periodicStep hp (runTicks hp k z) := by
        unfold runTicks
        exact Function.iterate_succ_apply' _ _ _
      rw [hstep, ih]
      unfold periodicStep
      simp only [Nat.mod_add_mod]
      by_cases hc : (k + 1) % hp = 0
      · have hdvd : hp ∣ (k + 1) := Nat.dvd_of_mod_eq_zero hc
        have hdiv : (k + 1) / hp = k / hp + 1 := by
          rw [Nat.succ_div]
          simp [hdvd]
        rw [hc, hdiv]
        by_cases hpar : k / hp % 2 = 0
        · have : (k / hp + 1) % 2 ≠ 0 := by omega
          simp [hpar, this]
        · have : (k / hp + 1) % 2 = 0 := by omega
          simp [hpar, this, swapSeasons]
      · have hdvd : ¬ hp ∣ (k + 1) := by
          intro hd
          obtain ⟨c, hcc⟩ := hd
          exact hc (by rw [hcc]; exact Nat.mul_mod_right hp c)
        have hdiv : (k + 1) / hp = k / hp := by
          rw [Nat.succ_div]
          simp [hdvd]
        rw [hdiv]
        simp [hc]

/-- C3: for a planet driven by `PeriodicController` with
`halfPeriod = revolutionPeriod / 2` (integer division) and clock starting
at 0, the clock after `n` ticks is `n % halfPeriod`, a swap is performed on
tick `n` exactly when `n` is a (positive) multiple of `halfPeriod` (the
cumulative assignment after `n` ticks is the initial one when `n / halfPeriod`
is even and the swapped one when it is odd), swapping twice is the identity,
and after `2 * halfPeriod` ticks the zone assignment equals the assignment at
tick 0. -/
theorem c3_swap_on_half_period_multiples (revolution_period : ℕ) (z : SeasonZones)
    (n : ℕ) (h : 0 < revolution_period / 2) :
    (runTicks (revolution_period / 2) n z).1 = n % (revolution_period / 2) ∧
    ((runTicks (revolution_period / 2) n z).1 = 0 ↔ revolution_period / 2 ∣ n) ∧
    (runTicks (revolution_period / 2) n z).2 =
      (if (n / (revolution_period / 2)) % 2 = 0 then z else swapSeasons z) ∧
    swapSeasons (swapSeasons z) = z ∧
    runTicks (revolution_period / 2) (2 * (revolution_period / 2)) z = (0, z) := by
  have hmain := runTicks_eq (revolution_period / 2) z n
  refine ⟨by rw [hmain], ?_, by rw [hmain], rfl, ?_⟩
  · rw [hmain]
    constructor
    · exact Nat.dvd_of_mod_eq_zero
    · intro hd
      obtain ⟨c, hcc⟩ := hd
      rw [hcc]
      exact Nat.mul_mod_right _ _
  · rw [runTicks_eq]
    rw [Nat.mul_mod_left, Nat.mul_div_cancel _ h]
    simp

/-- Witness for C3 at the spec's example `revolutionPeriod = 4`
(`halfPeriod = 2`): after 2 ticks the zones are flipped, after 4 ticks they
match the assignment at tick 0. -/
theorem c3_swap_on_half_period_multiples_witness :
    0 < 4 / 2 ∧
    ((runTicks (4 / 2) 2 ⟨["north"], ["south"]⟩).1 = 2 % (4 / 2) ∧
     ((runTicks (4 / 2) 2 ⟨["north"], ["south"]⟩).1 = 0 ↔ 4 / 2 ∣ 2) ∧
     (runTicks (4 / 2) 2 ⟨["north"], ["south"]⟩).2 =
       (if (2 / (4 / 2)) % 2 = 0 then (⟨["north"], ["south"]⟩ : SeasonZones)
        else swapSeasons ⟨["north"], ["south"]⟩) ∧
     swapSeasons (swapSeasons ⟨["north"], ["south"]⟩) = (⟨["north"], ["south"]⟩ : SeasonZones) ∧
     runTicks (4 / 2) (2 * (4 / 2)) ⟨["north"], ["south"]⟩ = (0, ⟨["north"], ["south"]⟩)) :=
  ⟨by decide, c3_swap_on_half_period_multiples 4 ⟨["north"], ["south"]⟩ 2 (by decide)⟩

/-- C1: season resolution in `PeriodicWeatherPlanet.report`: a location gets
season "rain" exactly when some region published by an attached overlay
(their region lists concatenated in attachment order; the source loop stops
at the first match, which forces the same result) contains it, with
containment inclusive on all four boundary edges; otherwise "summer" when
the resolved zone is among the summer zones and "winter" otherwise. -/
theorem resolveSeason_eq_ite (d : List (Location × Location)) (s : List String)
    (zone : String) (l : Location) :
    resolveSeason d s zone l =
      if (d.find? (fun region => containsLocation region l)).isSome then "rain"
      else if s.contains zone then "summer" else "winter" := by
  unfold resolveSeason
  cases d.find? (fun region => containsLocation region l) <;> simp

theorem c1_season_resolution (overlays : List (List (Location × Location)))
    (summer_zones : List String) (zone : String) (location : Location) :
    resolveSeason (decoratedLocations overlays) summer_zones zone location =
      if ∃ region ∈ decoratedLocations overlays,
          region.1.latitude ≤ location.latitude ∧
          location.latitude ≤ region.2.latitude ∧
          region.1.longitude ≤ location.longitude ∧
          location.longitude ≤ region.2.longitude
      then "rain"
      else if zone ∈ summer_zones then "summer" else "winter" := by
  rw [resolveSeason_eq_ite]
  by_cases hex : ∃ region ∈ decoratedLocations overlays,
      region.1.latitude ≤ location.latitude ∧
      location.latitude ≤ region.2.latitude ∧
      region.1.longitude ≤ location.longitude ∧
      location.longitude ≤ region.2.longitude
  · rw [if_pos hex, if_pos]
    rw [List.find?_isSome]
    obtain ⟨r, hmem, h1, h2, h3, h4⟩ := hex
    refine ⟨r, hmem, ?_⟩
    unfold containsLocation
    simp only [Bool.and_eq_true, decide_eq_true_eq]
    exact ⟨⟨⟨h1, h2⟩, h3⟩, h4⟩
  · rw [if_neg hex, if_neg]
    · by_cases hz : zone ∈ summer_zones
      · rw [if_pos (List.elem_iff.mpr hz), if_pos hz]
      · rw [if_neg, if_neg hz]
        intro hcon
        exact hz (List.elem_iff.mp hcon)
    · rw [List.find?_isSome]
      rintro ⟨r, hmem, hpred⟩
      unfold containsLocation at hpred
      simp only [Bool.and_eq_true, decide_eq_true_eq] at hpred
      exact hex ⟨r, hmem, hpred.1.1.1, hpred.1.1.2, hpred.1.2, hpred.2⟩

/-- C10: for a planet whose configured rain-eligible zone set is empty
(`rain_zones` present but empty, or absent, which `GetRainZones` also turns
into the empty list), `getAllowedRainLatitudes` has no latitudes to fold, so
Python's `min`/`max` raise and the `RainController` tick fails instead of
publishing an empty rain snapshot. -/
theorem c10_empty_rain_zones_tick_fails (zones : List (String × ℚ × ℚ))
    (rp : Option ℕ) (draw : ℚ × ℚ → List (Location × Location)) :
    rainTick { zones := zones, revolution_period := rp, rain_zones := some [] } draw =
      .error "ValueError: min() arg is an empty sequence" ∧
    rainTick { zones := zones, revolution_period := rp, rain_zones := none } draw =
      .error "ValueError: min() arg is an empty sequence" := by
  constructor <;>
    · unfold rainTick getAllowedRainLatitudes GetRainZones
      simp

/-- C9 counterexample: a planet entry with no `revolution_period` key does
not produce a configuration error at controller start — `GetPeriod`
substitutes the default 12 and the first tick succeeds with the substituted
period, contradicting the claim. -/
theorem c9_counterexample :
    GetPeriod { zones := [] } = 12 ∧
    periodicClockAdvance (GetPeriod { zones := [] } / 2) 0 = .ok 1 := by
  exact ⟨rfl, rfl⟩

/-- C9 (amended): a missing `revolution_period` is silently substituted with
the default 12 and the controller runs with it (clock advancing modulo 6);
a configured period of 0 is not reported at start either — it makes every
tick's `% planet_period` raise `ZeroDivisionError` inside the run loop. -/
theorem c9_amended_period_defaulted_or_crash :
    (∀ (zones : List (String × ℚ × ℚ)) (rz : Option (List String)),
      GetPeriod { zones := zones, revolution_period := none, rain_zones := rz } = 12) ∧
    (∀ season_clock, periodicClockAdvance
        (GetPeriod { zones := [], revolution_period := some 0 } / 2) season_clock =
      .error "ZeroDivisionError: integer division or modulo by zero") ∧
    (∀ season_clock, periodicClockAdvance
        (GetPeriod { zones := [], revolution_period := none } / 2) season_clock =
      .ok ((season_clock + 1) % 6)) :=
  ⟨fun _ _ => rfl, fun _ => rfl, fun _ => rfl⟩

/-- C8 counterexample: with base "periodic" and decorator list ["storm"],
the factory returns no controller at all, while the chain built from the
recognized identifiers alone (just the base) would be the periodic
controller — so unrecognized decorators are not skipped as no-ops. -/
theorem c8_counterexample :
    createWeatherController "periodic" ["storm"] = none ∧
    createWeatherController "periodic" [] = some .periodic :=
  ⟨rfl, rfl⟩

/-- C8 (amended): recognized identifiers build the chain (base "periodic"
wrapped once per "rain" decorator, a "rain" decorator wrapping whatever the
chain currently is — even the absent controller left by an earlier
unrecognized name), but an unrecognized decorator identifier is not skipped:
it replaces the chain built so far with no controller, so any decorator list
ending in an unrecognized identifier yields no controller; an unrecognized
base-weather identifier alone also yields no controller. -/
theorem c8_amended_unrecognized_nullifies :
    (∀ (base_weather : String) (ds : List String) (d : String), d ≠ "rain" →
      createWeatherController base_weather (ds ++ [d]) = none) ∧
    (∀ (base_weather : String) (ds : List String),
      createWeatherController base_weather (ds ++ ["rain"]) =
        some (.rain (createWeatherController base_weather ds))) ∧
    createWeatherController "periodic" [] = some .periodic ∧
    (∀ base_weather, base_weather ≠ "periodic" →
      createWeatherController base_weather [] = none) := by
  refine ⟨?_, ?_, rfl, ?_⟩
  · intro b ds d hd
    unfold createWeatherController
    rw [List.foldl_append]
    simp [createWeatherDecorator, hd]
  · intro b ds
    unfold createWeatherController
    rw [List.foldl_append]
    simp [createWeatherDecorator]
  · intro b hb
    unfold createWeatherController createBaseController
    simp [hb]

/-- Witness for the amended C8 at concrete inputs: the unrecognized
decorator "storm" after a recognized "rain" still nullifies the chain. -/
theorem c8_amended_unrecognized_nullifies_witness :
    ("storm" : String) ≠ "rain" ∧
    createWeatherController "periodic" (["rain"] ++ ["storm"]) = none :=
  ⟨by decide, c8_amended_unrecognized_nullifies.1 "periodic" ["rain"] "storm" (by decide)⟩

/-- C5: a `DataReaderError` raised while resolving the zone of the `k`-th
location (no planet data, or no zone covering its latitude) aborts the
report there and surfaces the error to the caller: the `k` locations
processed before it keep their newly rendered values (no rollback) and the
failing location and every location after it are left unchanged. -/
theorem c5_report_error_no_rollback (env : ReportEnv) :
    ∀ (ls : List LocationState) (k : ℕ) (e : DataReaderError),
      (∀ i, i < k → exceptIsOk (GetZone env.all_data env.planet_name
          ((ls.getD i emptyLocationState).toLocation)) = true) →
      GetZone env.all_data env.planet_name
          ((ls.getD k emptyLocationState).toLocation) = .error e →
      k < ls.length →
      reportLoop env ls =
        ((ls.take k).map (fun l => renderLocation env l (zoneNameOf env l)) ++ ls.drop k,
         some e) := by
  intro ls
  induction ls with
  | nil =>
      intro k e _ _ hk
      simp at hk
  | cons x rest ih =>
      intro k e hok hfail hk
      cases k with
      | zero =>
          have hfail0 : GetZone env.all_data env.planet_name x.toLocation = .error e := by
            simpa using hfail
          unfold reportLoop reportStep
          rw [hfail0]
          simp
      | succ j =>
          have hok0 := hok 0 (Nat.succ_pos j)
          simp only [List.getD_cons_zero] at hok0
          obtain ⟨zn, hzn⟩ : ∃ zn,
              GetZone env.all_data env.planet_name x.toLocation = .ok zn := by
            cases hzz : GetZone env.all_data env.planet_name x.toLocation with
            | ok z => exact ⟨z, rfl⟩
            | error e2 =>
                rw [hzz] at hok0
                simp [exceptIsOk] at hok0
          have hk2 : j < rest.length := by
            simp only [List.length_cons] at hk
            omega
          have hrest := ih j e
            (fun i hi => by
              have h2 := hok (i + 1) (Nat.succ_lt_succ hi)
              simpa using h2)
            (by simpa using hfail)
            hk2
          have hzname : zoneNameOf env x = zn := by
            unfold zoneNameOf
            rw [hzn]
          unfold reportLoop reportStep
          rw [hzn]
          simp only [List.take_succ_cons, List.drop_succ_cons, List.map_cons,
            List.cons_append, hrest, hzname]

/-- Witness for C5 at concrete inputs: under `sampleEnv` the first location
resolves, the second (latitude 80) makes `GetZone` raise; the report returns
the first location rendered, the second untouched, and the error. -/
theorem c5_report_error_no_rollback_witness :
    (∀ i, i < 1 → exceptIsOk (GetZone sampleEnv.all_data sampleEnv.planet_name
        (([sampleLocation, sampleBadLocation].getD i emptyLocationState).toLocation)) = true) ∧
    GetZone sampleEnv.all_data sampleEnv.planet_name
        (([sampleLocation, sampleBadLocation].getD 1 emptyLocationState).toLocation) =
      .error (.cannotDetermineZone 80) ∧
    1 < ([sampleLocation, sampleBadLocation] : List LocationState).length ∧
    reportLoop sampleEnv [sampleLocation, sampleBadLocation] =
      (([sampleLocation, sampleBadLocation].take 1).map
          (fun l => renderLocation sampleEnv l (zoneNameOf sampleEnv l)) ++
        [sampleLocation, sampleBadLocation].drop 1,
       some (.cannotDetermineZone 80)) :=
  ⟨by decide, rfl, by decide,
   c5_report_error_no_rollback sampleEnv [sampleLocation, sampleBadLocation] 1
     (.cannotDetermineZone 80) (by decide) rfl (by decide)⟩

theorem resolveSeason_mem (d : List (Location × Location)) (s : List String)
    (zone : String) (l : Location) :
    resolveSeason d s zone l = "rain" ∨ resolveSeason d s zone l = "summer" ∨
      resolveSeason d s zone l = "winter" := by
  rw [resolveSeason_eq_ite]
  split_ifs <;> simp

theorem renderLocation_season (env : ReportEnv) (location : LocationState)
    (zone : String) :
    (renderLocation env location zone).season ∈
      [some "Sunny", some "Snow", some "Rain"] := by
  unfold renderLocation
  rcases resolveSeason_mem env.decorated_locations env.summer_zones zone
      location.toLocation with h | h | h <;>
    simp [h, setSeason]

/-- C6 (amended): every record a report run touches — under any interleaving
with season-flip ticks, modelled by an arbitrary environment per location
step — carries a stored season label in the set "Sunny", "Snow", "Rain":
the season value `report` computes is always one of "summer", "winter",
"rain", and the `setSeason` property setter maps those to "Sunny", "Snow",
"Rain" before storing; untouched locations keep their input state. -/
theorem c6_amended_season_labels (envs : ℕ → ReportEnv) (i : ℕ)
    (ls : List LocationState) :
    ∀ l ∈ (reportLoopSeq envs i ls).1,
      l ∈ ls ∨ l.season ∈ [some "Sunny", some "Snow", some "Rain"] := by
  induction ls generalizing i with
  | nil =>
      intro l hl
      simp [reportLoopSeq] at hl
  | cons x rest ih =>
      intro l hl
      unfold reportLoopSeq at hl
      cases hstep : reportStep (envs i) x with
      | error e =>
          rw [hstep] at hl
          exact Or.inl hl
      | ok rendered =>
          rw [hstep] at hl
          simp only [List.mem_cons] at hl
          rcases hl with rfl | hl
          · right
            unfold reportStep at hstep
            cases hz : GetZone (envs i).all_data (envs i).planet_name x.toLocation with
            | error e => rw [hz] at hstep; cases hstep
            | ok zone =>
                rw [hz] at hstep
                injection hstep with hstep
                rw [← hstep]
                exact renderLocation_season (envs i) x zone
          · rcases ih (i + 1) l hl with h | h
            · exact Or.inl (List.mem_cons_of_mem _ h)
            · exact Or.inr h

/-- Witness for the amended C6 at concrete inputs. -/
theorem c6_amended_season_labels_witness :
    sampleRendered ∈ (reportLoopSeq (fun _ => sampleEnv) 0 [sampleLocation]).1 ∧
    (sampleRendered ∈ [sampleLocation] ∨
      sampleRendered.season ∈ [some "Sunny", some "Snow", some "Rain"]) :=
  ⟨by decide,
   c6_amended_season_labels (fun _ => sampleEnv) 0 [sampleLocation] sampleRendered
     (by decide)⟩

/-- C6 counterexample: a successful report run on the sample planet stores
the season label "Sunny" — which is none of "summer", "winter", "rain" — on
its record, because `Location.setSeason` maps the computed value "summer" to
"Sunny" before storing; so the claim as stated fails on every record. -/
theorem c6_counterexample_sunny_label :
    (reportLoop sampleEnv [sampleLocation]).2 = none ∧
    (reportLoop sampleEnv [sampleLocation]).1.map (fun l => l.season) = [some "Sunny"] ∧
    ("Sunny" : String) ≠ "summer" ∧ ("Sunny" : String) ≠ "winter" ∧
    ("Sunny" : String) ≠ "rain" := by
  refine ⟨by decide, by decide, by decide, by decide, by decide⟩

theorem toDigitsCore_mem : ∀ (f n : ℕ) (acc : List Char) (c : Char),
    c ∈ Nat.toDigitsCore 10 f n acc → c ∈ acc ∨ ∃ k, k < 10 ∧ c = Nat.digitChar k := by
  intro f
  induction f with
  | zero =>
      intro n acc c hc
      exact Or.inl (by simpa [Nat.toDigitsCore] using hc)
  | succ f ih =>
      intro n acc c hc
      simp only [Nat.toDigitsCore] at hc
      by_cases hx : n / 10 = 0
      · rw [if_pos hx] at hc
        rcases List.mem_cons.mp hc with rfl | h
        · exact Or.inr ⟨n % 10, Nat.mod_lt _ (by norm_num), rfl⟩
        · exact Or.inl h
      · rw [if_neg hx] at hc
        rcases ih (n / 10) (Nat.digitChar (n % 10) :: acc) c hc with h | h
        · rcases List.mem_cons.mp h with rfl | h2
          · exact Or.inr ⟨n % 10, Nat.mod_lt _ (by norm_num), rfl⟩
          · exact Or.inl h2
        · exact Or.inr h

theorem toDigitsCore_append : ∀ (f n : ℕ) (acc : List Char),
    ∃ pre, Nat.toDigitsCore 10 f n acc = pre ++ acc := by
  intro f
  induction f with
  | zero =>
      intro n acc
      exact ⟨[], by simp [Nat.toDigitsCore]⟩
  | succ f ih =>
      intro n acc
      by_cases hx : n / 10 = 0
      · exact ⟨[Nat.digitChar (n % 10)], by simp [Nat.toDigitsCore, hx]⟩
      · obtain ⟨pre, hpre⟩ := ih (n / 10) (Nat.digitChar (n % 10) :: acc)
        refine ⟨pre ++ [Nat.digitChar (n % 10)], ?_⟩
        simp [Nat.toDigitsCore, hx, hpre]

theorem toDigits_ne_nil (m : ℕ) : Nat.toDigits 10 m ≠ [] := by
  unfold Nat.toDigits
  by_cases hx : m / 10 = 0
  · simp [Nat.toDigitsCore, hx]
  · obtain ⟨pre, hpre⟩ := toDigitsCore_append m (m / 10) [Nat.digitChar (m % 10)]
    simp [Nat.toDigitsCore, hx, hpre]

theorem repr_head_digit (m : ℕ) :
    ∃ k, k < 10 ∧ (Nat.repr m).data.head? = some (Nat.digitChar k) := by
  have hdata : (Nat.repr m).data = Nat.toDigits 10 m := rfl
  cases hl : Nat.toDigits 10 m with
  | nil => exact absurd hl (toDigits_ne_nil m)
  | cons c t =>
      have hcmem : c ∈ Nat.toDigitsCore 10 (m + 1) m [] := by
        have : c ∈ Nat.toDigits 10 m := by
          rw [hl]
          exact List.mem_cons_self _ _
        exact this
      rcases toDigitsCore_mem (m + 1) m [] c hcmem with h | ⟨k, hk, rfl⟩
      · simp at h
      · exact ⟨k, hk, by rw [hdata, hl]; rfl⟩

theorem digitChar_lt_ten_ne_sign :
    ∀ k, k < 10 → Nat.digitChar k ≠ '+' ∧ Nat.digitChar k ≠ '-' := by decide

theorem formatTenths_head (t : ℚ) :
    ∃ c, (formatTenths t).data.head? = some c ∧ c ≠ '+' := by
  unfold formatTenths
  by_cases hs : roundHalfEven (10 * t) < 0 ∨ (roundHalfEven (10 * t) = 0 ∧ t < 0)
  · rw [if_pos hs]
    refine ⟨'-', ?_, by decide⟩
    simp
  · rw [if_neg hs]
    obtain ⟨k, hk, hh⟩ := repr_head_digit ((roundHalfEven (10 * t)).natAbs / 10)
    refine ⟨Nat.digitChar k, ?_, (digitChar_lt_ten_ne_sign k hk).1⟩
    simp [List.head?_append, hh]

theorem roundHalfEven_nonpos_of_neg (x : ℚ) (hx : x < 0) : roundHalfEven x ≤ 0 := by
  unfold roundHalfEven
  have hfl : ⌊x⌋ < 0 := by
    have h2 : (⌊x⌋ : ℚ) < 0 := lt_of_le_of_lt (Int.floor_le x) hx
    exact_mod_cast h2
  split_ifs <;> omega

theorem roundHalfEven_zero : roundHalfEven 0 = 0 := by
  unfold roundHalfEven
  norm_num

theorem getTemperatureAsString_head_plus_iff (v : ℚ) :
    (getTemperatureAsString (some v)).data.head? = some '+' ↔
      0 < roundHalfEven (10 * v) := by
  have hred : getTemperatureAsString (some v) =
      (if v = 0 then "0.0"
       else if 0 < roundHalfEven (10 * v) then "+" ++ formatTenths v
       else formatTenths v) := rfl
  rw [hred]
  by_cases hv : v = 0
  · subst hv
    rw [if_pos rfl, mul_zero, roundHalfEven_zero]
    constructor
    · intro h
      injection h with h
      exact absurd h (by decide)
    · intro h
      exact absurd h (lt_irrefl 0)
  · rw [if_neg hv]
    by_cases hp : 0 < roundHalfEven (10 * v)
    · rw [if_pos hp]
      constructor
      · intro _; exact hp
      · intro _; simp
    · rw [if_neg hp]
      obtain ⟨c, hc, hcne⟩ := formatTenths_head v
      rw [hc]
      constructor
      · intro h
        injection h with h
        exact absurd h hcne
      · intro h
        exact absurd h hp

theorem getTemperatureAsString_head_minus (v : ℚ) (hvneg : v < 0) :
    (getTemperatureAsString (some v)).data.head? = some '-' := by
  have hv : v ≠ 0 := ne_of_lt hvneg
  have h10 : (10 : ℚ) * v < 0 := mul_neg_of_pos_of_neg (by norm_num) hvneg
  have hn : roundHalfEven (10 * v) ≤ 0 := roundHalfEven_nonpos_of_neg _ h10
  have hp : ¬ 0 < roundHalfEven (10 * v) := not_lt.mpr hn
  have hred : getTemperatureAsString (some v) =
      (if v = 0 then "0.0"
       else if 0 < roundHalfEven (10 * v) then "+" ++ formatTenths v
       else formatTenths v) := rfl
  rw [hred, if_neg hv, if_neg hp]
  unfold formatTenths
  have hsign : roundHalfEven (10 * v) < 0 ∨ (roundHalfEven (10 * v) = 0 ∧ v < 0) := by
    rcases lt_or_eq_of_le hn with h | h
    · exact Or.inl h
    · exact Or.inr ⟨h, hvneg⟩
  rw [if_pos hsign]
  simp

theorem repr_digit_length : ∀ d, d < 10 → (Nat.repr d).length = 1 := by decide

theorem getTemperatureAsString_one_fraction_digit (v : ℚ) :
    ∃ (pre : String) (d : ℕ), d < 10 ∧ (Nat.repr d).length = 1 ∧
      getTemperatureAsString (some v) = pre ++ "." ++ Nat.repr d := by
  have hred : getTemperatureAsString (some v) =
      (if v = 0 then "0.0"
       else if 0 < roundHalfEven (10 * v) then "+" ++ formatTenths v
       else formatTenths v) := rfl
  rw [hred]
  by_cases hv : v = 0
  · subst hv
    rw [if_pos rfl]
    exact ⟨"0", 0, by norm_num, repr_digit_length 0 (by norm_num), by decide⟩
  · rw [if_neg hv]
    have hd : (roundHalfEven (10 * v)).natAbs % 10 < 10 := Nat.mod_lt _ (by norm_num)
    by_cases hp : 0 < roundHalfEven (10 * v)
    · rw [if_pos hp]
      refine ⟨"+" ++ ((if roundHalfEven (10 * v) < 0 ∨ (roundHalfEven (10 * v) = 0 ∧ v < 0)
          then "-" else "") ++ Nat.repr ((roundHalfEven (10 * v)).natAbs / 10)),
        (roundHalfEven (10 * v)).natAbs % 10, hd, repr_digit_length _ hd, ?_⟩
      unfold formatTenths
      simp only [String.append_assoc]
    · rw [if_neg hp]
      refine ⟨(if roundHalfEven (10 * v) < 0 ∨ (roundHalfEven (10 * v) = 0 ∧ v < 0)
          then "-" else "") ++ Nat.repr ((roundHalfEven (10 * v)).natAbs / 10),
        (roundHalfEven (10 * v)).natAbs % 10, hd, repr_digit_length _ hd, ?_⟩
      unfold formatTenths
      simp only [String.append_assoc]

theorem roundHalfEven_positive_example :
    roundHalfEven (10 * (4056789 / 100000 : ℚ)) = 406 := by
  have h10 : (10 : ℚ) * (4056789 / 100000) = 4056789 / 10000 := by norm_num
  have hfl : ⌊(4056789 / 10000 : ℚ)⌋ = 405 := by norm_num
  rw [h10]
  unfold roundHalfEven
  rw [hfl]
  rw [if_neg (by norm_num), if_pos (by norm_num)]
  norm_num

theorem roundHalfEven_negative_example :
    roundHalfEven (10 * (-4056789 / 100000 : ℚ)) = -406 := by
  have h10 : (10 : ℚ) * (-4056789 / 100000) = -4056789 / 10000 := by norm_num
  have hfl : ⌊(-4056789 / 10000 : ℚ)⌋ = -406 := by norm_num
  rw [h10]
  unfold roundHalfEven
  rw [hfl]
  rw [if_pos (by norm_num)]

theorem getTemperatureAsString_positive_example :
    getTemperatureAsString (some (4056789 / 100000 : ℚ)) = "+40.6" := by
  have hred : getTemperatureAsString (some (4056789 / 100000 : ℚ)) =
      (if (4056789 / 100000 : ℚ) = 0 then "0.0"
       else if 0 < roundHalfEven (10 * (4056789 / 100000 : ℚ))
       then "+" ++ formatTenths (4056789 / 100000 : ℚ)
       else formatTenths (4056789 / 100000 : ℚ)) := rfl
  rw [hred]
  unfold formatTenths
  rw [roundHalfEven_positive_example]
  rw [if_neg (by norm_num), if_pos (by norm_num), if_neg (by norm_num)]
  decide

theorem getTemperatureAsString_negative_example :
    getTemperatureAsString (some (-4056789 / 100000 : ℚ)) = "-40.6" := by
  have hred : getTemperatureAsString (some (-4056789 / 100000 : ℚ)) =
      (if (-4056789 / 100000 : ℚ) = 0 then "0.0"
       else if 0 < roundHalfEven (10 * (-4056789 / 100000 : ℚ))
       then "+" ++ formatTenths (-4056789 / 100000 : ℚ)
       else formatTenths (-4056789 / 100000 : ℚ)) := rfl
  rw [hred]
  unfold formatTenths
  rw [roundHalfEven_negative_example]
  rw [if_neg (by norm_num), if_neg (by norm_num), if_pos (by norm_num)]
  decide

/-- C7 (amended): `getTemperatureAsString` renders an unset temperature as
the literal "None" and a set one with exactly one fraction digit (the string
ends in '.' followed by a single decimal digit); the explicit leading '+'
appears exactly when the value rounded to one decimal is positive (so a
positive temperature that rounds to 0.0, such as 0.04, gets no '+'), a '-'
leads whenever the temperature is negative, and the spec's examples hold:
40.56789 renders as "+40.6" and -40.56789 as "-40.6". -/
theorem c7_amended_temperature_format :
    getTemperatureAsString none = "None" ∧
    getTemperatureAsString (some (4056789 / 100000 : ℚ)) = "+40.6" ∧
    getTemperatureAsString (some (-4056789 / 100000 : ℚ)) = "-40.6" ∧
    (∀ v : ℚ, ((getTemperatureAsString (some v)).data.head? = some '+' ↔
      0 < roundHalfEven (10 * v))) ∧
    (∀ v : ℚ, v < 0 → (getTemperatureAsString (some v)).data.head? = some '-') ∧
    (∀ v : ℚ, ∃ (pre : String) (d : ℕ), d < 10 ∧ (Nat.repr d).length = 1 ∧
      getTemperatureAsString (some v) = pre ++ "." ++ Nat.repr d) :=
  ⟨rfl, getTemperatureAsString_positive_example, getTemperatureAsString_negative_example,
   getTemperatureAsString_head_plus_iff, getTemperatureAsString_head_minus,
   getTemperatureAsString_one_fraction_digit⟩

/-- Witness for the amended C7 at a concrete negative temperature. -/
theorem c7_amended_temperature_format_witness :
    ((-1 : ℚ) < 0) ∧ (getTemperatureAsString (some (-1 : ℚ))).data.head? = some '-' :=
  ⟨by norm_num, c7_amended_temperature_format.2.2.2.2.1 (-1) (by norm_num)⟩

/-- C7 counterexample: the temperature 1/25 = 0.04 is positive (set, non-None)
but renders as "0.0" with no leading '+', because the code decides the sign
from `float('%.1f' % t) > 0`, i.e. from the rounded value, not from the
temperature itself — refuting the claim that every positive temperature gets
an explicit '+'. -/
theorem c7_counterexample_positive_without_plus :
    (0 : ℚ) < 1 / 25 ∧ getTemperatureAsString (some (1 / 25 : ℚ)) = "0.0" := by
  constructor
  · norm_num
  · have h10 : (10 : ℚ) * (1 / 25) = 2 / 5 := by norm_num
    have hfl : ⌊(2 / 5 : ℚ)⌋ = 0 := by norm_num
    have hn : roundHalfEven (10 * (1 / 25 : ℚ)) = 0 := by
      rw [h10]
      unfold roundHalfEven
      rw [hfl]
      rw [if_pos (by norm_num)]
    have hred : getTemperatureAsString (some (1 / 25 : ℚ)) =
        (if (1 / 25 : ℚ) = 0 then "0.0"
         else if 0 < roundHalfEven (10 * (1 / 25 : ℚ))
         then "+" ++ formatTenths (1 / 25 : ℚ)
         else formatTenths (1 / 25 : ℚ)) := rfl
    rw [hred]
    unfold formatTenths
    rw [hn]
    rw [if_neg (by norm_num), if_neg (by norm_num), if_neg (by norm_num)]
    decide

end WeatherData
